import Mathlib

/-!
# Library-management frontend: verification of the spec's claims

Shallow embedding of the `library-management-frontend` repository:

* the borrow/return lifecycle contract of the REST backend that the spec
  (§3, §6) describes — the backend's code is not part of this repository,
  so operations on `LMS.LibraryState` are modelled from the spec's words;
* the frontend's own logic, translated from the source files: the error
  handlers of every page (`src/app/**`, `src/unnamed/part_000..001`), the
  add-book ISBN pattern, `handleBorrow`, `handleReturn`, the overdue page's
  days-late derivation and the dashboard statistics.
-/

namespace LMS

/-! ## Data model (spec §3) -/

/-- Membership status, gating borrowing eligibility (spec glossary). -/
inductive MemberStatus where
  | ACTIVE
  | SUSPENDED
deriving DecidableEq, Repr

/-- Status of a borrow record: borrowed, returned-on-time, overdue (spec §3). -/
inductive BorrowStatus where
  | BORROWED
  | RETURNED
  | OVERDUE
deriving DecidableEq, Repr

/-- Book entity as mirrored by the frontend (spec §3, `src/app/books/page.tsx`
interface `Book`). -/
structure Book where
  id : Nat
  title : String
  author : String
  isbn : String
  category : String
  totalQuantity : Nat
  availableQuantity : Nat
deriving DecidableEq, Repr

/-- Member entity as mirrored by the frontend (spec §3, `src/unnamed/part_000`
interface `Member`). -/
structure Member where
  id : Nat
  name : String
  email : String
  membershipId : String
  phone : String
  registrationDate : Int
  status : MemberStatus
deriving DecidableEq, Repr

/-- Borrow record (spec §3): dates are counted in whole days, the fine in
currency units (₹). -/
structure BorrowRecord where
  id : Nat
  bookId : Nat
  memberId : Nat
  borrowDate : Int
  dueDate : Int
  returnDate : Option Int
  fine : Int
  status : BorrowStatus
deriving DecidableEq, Repr

/-- Loan period: the due date is the borrow date plus 14 days (spec §3, §6). -/
def dueDays : Int := 14

/-- Fixed per-day fine rate of ₹10 (spec §6; `src/unnamed/part_001` comment
"Fine = (days late) × ₹10 per day"). -/
def finePerDay : Int := 10

/-- Maximum number of simultaneously borrowed books per member: the borrow
operation fails unless the member's active-borrow count is `< 3`
(spec §6; `src/lib/api.ts` "Member cannot have more than 3 books"). -/
def maxActiveBorrows : Nat := 3

/-- Backend state: the inventories the REST endpoints serve, the borrow
records, the id counter for new records and the current day. -/
structure LibraryState where
  books : List Book
  members : List Member
  borrows : List BorrowRecord
  nextId : Nat
  today : Int
deriving DecidableEq, Repr

/-! ## Backend contract, modelled from the spec (§6 table) -/

/-- Lookup of a book by id (GET /books/{id}). -/
def findBook (s : LibraryState) (bookId : Nat) : Option Book :=
  s.books.find? (fun b => b.id == bookId)

/-- Lookup of a member by id (GET /members/{id}). -/
def findMember (s : LibraryState) (memberId : Nat) : Option Member :=
  s.members.find? (fun m => m.id == memberId)

/-- The member's count of active (status BORROWED) borrow records. -/
def activeBorrowCount (s : LibraryState) (memberId : Nat) : Nat :=
  (s.borrows.filter (fun r => r.memberId == memberId && r.status == .BORROWED)).length

/-- Decrement (on borrow) or increment (on return) a book's available
quantity in the inventory. -/
def adjustAvailability (books : List Book) (bookId : Nat) (delta : Int) : List Book :=
  books.map (fun b =>
    if b.id == bookId then
      { b with availableQuantity := (((b.availableQuantity : Int) + delta).toNat) }
    else b)

/-- Modelled from the spec: the backend's POST /borrow operation, which is not
part of this repository. Spec §6: "created borrow record with dueDate = now+14d;
fails unless book available, member ACTIVE, and member's active-borrow
count < 3"; spec §3: the created record has a null return date, zero fine and
status borrowed, and availability is maintained server-side. -/
def borrowBook (s : LibraryState) (bookId memberId : Nat) :
    Except String (BorrowRecord × LibraryState) :=
  match findBook s bookId with
  | none => .error "Book not found"
  | some book =>
    if book.availableQuantity = 0 then .error "Book not available"
    else
      match findMember s memberId with
      | none => .error "Member not found"
      | some mem =>
        if mem.status ≠ MemberStatus.ACTIVE then .error "Member not active"
        else if maxActiveBorrows ≤ activeBorrowCount s memberId then
          .error "Borrow limit reached"
        else
          let r : BorrowRecord :=
            { id := s.nextId, bookId := bookId, memberId := memberId,
              borrowDate := s.today, dueDate := s.today + dueDays,
              returnDate := none, fine := 0, status := .BORROWED }
          .ok (r, { s with
                    books := adjustAvailability s.books bookId (-1),
                    borrows := s.borrows ++ [r],
                    nextId := s.nextId + 1 })

/-- Modelled from the spec: finalization of a borrow record when its return is
processed. Spec §6: "updated borrow record with returnDate and
fine = max(0, daysLate) × fixed per-day rate"; spec §3: the record moves to
returned-on-time or overdue. -/
def finalizeReturn (today : Int) (r : BorrowRecord) : BorrowRecord :=
  let daysLate : Int := today - r.dueDate
  { r with
    returnDate := some today,
    fine := max 0 daysLate * finePerDay,
    status := if 0 < daysLate then .OVERDUE else .RETURNED }

/-- Modelled from the spec: the backend's PUT /borrow/{id}/return operation,
which is not part of this repository. It finalizes the BORROWED record with
the given id (spec §3 lifecycle; `src/lib/api.ts`: "Calculates fine if
overdue, updates book availability, sets return date"). -/
def returnBook (s : LibraryState) (recordId : Nat) :
    Except String (BorrowRecord × LibraryState) :=
  match s.borrows.find? (fun r => r.id == recordId && r.status == .BORROWED) with
  | none => .error "Active borrow record not found"
  | some r =>
    .ok (finalizeReturn s.today r,
         { s with
           books := adjustAvailability s.books r.bookId 1,
           borrows := s.borrows.map (fun q =>
             if q.id == recordId && q.status == .BORROWED then
               finalizeReturn s.today q
             else q) })

/-- GET /books: all books (spec §6). -/
def booksGetAll (s : LibraryState) : List Book := s.books

/-- GET /books/available: books with `availableQuantity > 0` (spec §6). -/
def booksGetAvailable (s : LibraryState) : List Book :=
  s.books.filter (fun b => 0 < b.availableQuantity)

/-- GET /members: all members (spec §6). -/
def membersGetAll (s : LibraryState) : List Member := s.members

/-- GET /borrow/active: records with status BORROWED (spec §6). -/
def borrowGetActive (s : LibraryState) : List BorrowRecord :=
  s.borrows.filter (fun r => r.status == .BORROWED)

/-- GET /borrow/overdue: records with status OVERDUE (spec §6). -/
def borrowGetOverdue (s : LibraryState) : List BorrowRecord :=
  s.borrows.filter (fun r => r.status == .OVERDUE)

/-! ## Lifecycle events and reachability (spec §3) -/

/-- The requests that drive the borrow-record lifecycle, plus the passage of
a day (the backend's `now` advancing between requests). -/
inductive LibEvent where
  | borrowReq (bookId memberId : Nat)
  | returnReq (recordId : Nat)
  | tick
deriving DecidableEq, Repr

/-- One step of the backend: a failed request leaves the state unchanged
(the frontend keeps its old view and merely shows an error). -/
def step (s : LibraryState) : LibEvent → LibraryState
  | .borrowReq bookId memberId =>
    match borrowBook s bookId memberId with
    | .ok (_, s') => s'
    | .error _ => s
  | .returnReq recordId =>
    match returnBook s recordId with
    | .ok (_, s') => s'
    | .error _ => s
  | .tick => { s with today := s.today + 1 }

/-- Initial backend state: any inventory of books and members, no borrow
records yet (every borrow record is "created on a borrow request", spec §3). -/
def initState (books : List Book) (members : List Member) (today : Int) :
    LibraryState :=
  { books := books, members := members, borrows := [], nextId := 0, today := today }

/-- States reachable from an initial state by backend requests. -/
inductive Reachable : LibraryState → Prop where
  | init (books : List Book) (members : List Member) (today : Int) :
      Reachable (initState books members today)
  | next {s : LibraryState} (e : LibEvent) : Reachable s → Reachable (step s e)

/-! ## Frontend model, translated from the source files -/

/-- An observable side effect of a frontend event handler: a console log, a
blocking `alert` dialog, a state-setter call or an HTTP request. -/
inductive Effect where
  | consoleError (context : String)
  | alertMsg (msg : String)
  | setLoading (b : Bool)
  | setSubmitting (b : Bool)
  | setSelectedBook (v : String)
  | setSelectedMember (v : String)
  | setBooks
  | setBorrows
  | requestPostBorrow (bookId memberId : String)
  | requestPutReturn (recordId : Nat)
  | requestGetAvailableBooks
  | requestPostBook
deriving DecidableEq, Repr

/-- Whether an effect is a blocking dialog (`alert`). -/
def Effect.isBlockingDialog : Effect → Bool
  | .alertMsg _ => true
  | _ => false

/-- Whether an effect is an outgoing network request. -/
def Effect.isNetworkRequest : Effect → Bool
  | .requestPostBorrow _ _ => true
  | .requestPutReturn _ => true
  | .requestGetAvailableBooks => true
  | .requestPostBook => true
  | _ => false

/-- Whether a handler's effect list surfaces the error via a blocking dialog. -/
def showsBlockingDialog (effs : List Effect) : Bool :=
  effs.any Effect.isBlockingDialog

/-- `.catch` of the dashboard's page-load fetch (`src/unnamed/part_001`,
`Home`): `console.error` then `setLoading(false)`. -/
def dashboardLoadCatch : List Effect :=
  [.consoleError "Error loading dashboard:", .setLoading false]

/-- `.catch` of the borrow page's page-load fetch (`src/app/borrow/page.tsx`). -/
def borrowPageLoadCatch : List Effect :=
  [.consoleError "Error loading data:", .setLoading false]

/-- `.catch` of the books page's all-books fetch (`src/app/books/page.tsx`). -/
def booksPageLoadAllCatch : List Effect :=
  [.consoleError "Error loading all books:", .setLoading false]

/-- `.catch` of the books page's available-books fetch
(`src/app/books/page.tsx`). -/
def booksPageLoadAvailableCatch : List Effect :=
  [.consoleError "Error loading available books:", .setLoading false]

/-- `.catch` of the members page's page-load fetch (`src/unnamed/part_000`). -/
def membersPageLoadCatch : List Effect :=
  [.consoleError "Error loading members:", .setLoading false]

/-- `.catch` of the overdue page's page-load fetch (`src/unnamed/part_001`,
`OverduePage`). -/
def overduePageLoadCatch : List Effect :=
  [.consoleError "Error loading overdue books:", .setLoading false]

/-- `.catch` of `fetchActiveBorrows` (`src/unnamed/part_001`,
`ActiveBorrows`). -/
def activeBorrowsLoadCatch : List Effect :=
  [.consoleError "Error loading active borrows:", .setLoading false]

/-- `catch` block of `handleBorrow` (`src/app/borrow/page.tsx` lines 71–74):
`alert(err.response?.data?.message || 'Cannot borrow this book. ...')`.
`serverMsg` is `err.response?.data?.message` when the server provided one. -/
def handleBorrowCatch (serverMsg : Option String) : List Effect :=
  [.consoleError "Error borrowing book:",
   .alertMsg (serverMsg.getD "Cannot borrow this book. Check member status and book limits.")]

/-- `catch` block of `handleReturn` (`src/unnamed/part_001` lines 366–369):
a fixed fallback message, no server message is read. -/
def handleReturnCatch : List Effect :=
  [.consoleError "Error returning book:", .alertMsg "Error returning book"]

/-- `catch` block of the add-book `handleSubmit` (`src/app/books/page.tsx`
lines 238–242). -/
def addBookCatch (serverMsg : Option String) : List Effect :=
  [.consoleError "Error adding book:",
   .alertMsg (serverMsg.getD "Error adding book. Please check ISBN uniqueness."),
   .setSubmitting false]

/-! ### Borrow page (`src/app/borrow/page.tsx`) -/

/-- View state of the borrow page: the fetched lists and the two `<select>`
values (React `useState`, both initialised to `''`). -/
structure BorrowPageState where
  books : List Book
  members : List Member
  selectedBook : String
  selectedMember : String
deriving DecidableEq, Repr

/-- Outcome of the awaited `borrowAPI.borrowBook` call as seen by
`handleBorrow`: on success the handler then refetches the available books. -/
inductive BorrowCallOutcome where
  | success (refreshedBooks : List Book)
  | failure (serverMsg : Option String)
deriving DecidableEq, Repr

/-- `alert` text of the successful borrow (`src/app/borrow/page.tsx` line 62). -/
def borrowSuccessMessage : String := "Book borrowed successfully! Due in 14 days"

/-- Caption under the borrow button (`src/app/borrow/page.tsx` lines 149–151). -/
def borrowPageDueNote : String := "Due date will be 14 days from today"

/-- `handleBorrow` (`src/app/borrow/page.tsx` lines 51–75). JS string
falsiness: `!selectedBook` is true exactly when the string is empty. Returns
the emitted effects and the new view state. -/
def handleBorrow (s : BorrowPageState) (outcome : BorrowCallOutcome) :
    List Effect × BorrowPageState :=
  if s.selectedBook = "" ∨ s.selectedMember = "" then
    ([.alertMsg "Please select both book and member"], s)
  else
    match outcome with
    | .success refreshedBooks =>
      ([.requestPostBorrow s.selectedBook s.selectedMember,
        .alertMsg borrowSuccessMessage,
        .setSelectedBook "", .setSelectedMember "",
        .requestGetAvailableBooks, .setBooks],
       { s with selectedBook := "", selectedMember := "",
                books := refreshedBooks })
    | .failure serverMsg =>
      ([.requestPostBorrow s.selectedBook s.selectedMember] ++
         handleBorrowCatch serverMsg,
       s)

/-! ### Active borrows page (`src/unnamed/part_001`, `ActiveBorrows`) -/

/-- Outcome of the awaited `borrowAPI.returnBook` call as seen by
`handleReturn`: on success the response carries the computed fine. -/
inductive ReturnCallOutcome where
  | success (fine : Int)
  | failure
deriving DecidableEq, Repr

/-- `handleReturn` (`src/unnamed/part_001` lines 351–370): after the user
confirms, await the return call, alert the outcome, and on success drop the
returned record from the list via `prev.filter(b => b.id !== id)`.
(The fine shown in the alert is `fine.toFixed(2)` in the source; the exact
decimal formatting is not modelled.) -/
def handleReturn (borrows : List BorrowRecord) (recordId : Nat)
    (confirmed : Bool) (outcome : ReturnCallOutcome) :
    List Effect × List BorrowRecord :=
  if !confirmed then ([], borrows)
  else
    match outcome with
    | .success fine =>
      ([.requestPutReturn recordId,
        .alertMsg (if 0 < fine then
                     "Book returned!\nOverdue fine: ₹" ++ toString fine
                   else "Book returned on time!"),
        .setBorrows],
       borrows.filter (fun b => b.id != recordId))
    | .failure =>
      ([.requestPutReturn recordId] ++ handleReturnCatch, borrows)

/-- The claim's wording for the post-return list: the previous list with
every record whose id equals the returned id removed, all other records
unchanged and in their original relative order. -/
def removeAllWithId : List BorrowRecord → Nat → List BorrowRecord
  | [], _ => []
  | b :: rest, i =>
    if b.id = i then removeAllWithId rest i else b :: removeAllWithId rest i

/-! ### Add-book form (`src/app/books/page.tsx`, `AddBook`) -/

/-- The ISBN `pattern` attribute of the add-book form
(`src/app/books/page.tsx` line 289): the regex `\d{10}|\d{13}`, which the
browser applies anchored to the whole input (`\d` = one decimal digit);
submission is blocked while the input does not match. -/
def isbnPatternValid (s : String) : Bool :=
  (s.data.length == 10 && s.data.all Char.isDigit) ||
    (s.data.length == 13 && s.data.all Char.isDigit)

/-- The spec's wording for a well-formed ISBN: the string consists of exactly
10 decimal digits or exactly 13 decimal digits. -/
def SpecIsbnWellFormed (s : String) : Prop :=
  (s.data.length = 10 ∨ s.data.length = 13) ∧ ∀ c ∈ s.data, c.isDigit = true

/-! ### Overdue page (`src/unnamed/part_001`, `OverduePage`) -/

/-- JavaScript `Math.round`: round half up, `⌊x + 1/2⌋`. -/
def jsMathRound (x : ℚ) : Int := ⌊x + 1 / 2⌋

/-- The Days Late badge of the overdue page (`src/unnamed/part_001`
line 261): `Math.round(b.fine / 10)`. -/
def overdueDaysLateDisplay (fine : ℚ) : Int := jsMathRound (fine / 10)

/-! ### Dashboard (`src/unnamed/part_001`, `Home`) -/

/-- The dashboard's statistics state (`useState({ books, members, overdue })`). -/
structure DashboardStats where
  books : Nat
  members : Nat
  overdue : Nat
deriving DecidableEq, Repr

/-- The dashboard's `setStats` computation (`src/unnamed/part_001`
lines 44–49): the lengths of the GET /books, GET /members and
GET /borrow/overdue responses. -/
def homeComputeStats (booksRes : List Book) (membersRes : List Member)
    (overdueRes : List BorrowRecord) : DashboardStats :=
  { books := booksRes.length, members := membersRes.length,
    overdue := overdueRes.length }

/-- The dashboard page-load flow: fetch the three endpoints in parallel and
store the lengths of their responses. -/
def dashboardStats (s : LibraryState) : DashboardStats :=
  homeComputeStats (booksGetAll s) (membersGetAll s) (borrowGetOverdue s)

/-! ## Concrete sample data (used by the witnesses) -/

/-- A sample book with one available copy. -/
def demoBook : Book :=
  { id := 1, title := "B", author := "A", isbn := "1234567890",
    category := "", totalQuantity := 2, availableQuantity := 1 }

/-- A sample ACTIVE member. -/
def demoMember : Member :=
  { id := 1, name := "M", email := "m@x", membershipId := "LIB1",
    phone := "", registrationDate := 0, status := .ACTIVE }

/-- A sample backend state with no borrows yet. -/
def demoState : LibraryState := initState [demoBook] [demoMember] 100

/-- The borrow record created by `borrowBook demoState 1 1`. -/
def demoRecord : BorrowRecord :=
  { id := 0, bookId := 1, memberId := 1, borrowDate := 100, dueDate := 114,
    returnDate := none, fine := 0, status := .BORROWED }

/-- The backend state after `borrowBook demoState 1 1`. -/
def demoStateAfter : LibraryState :=
  { books := [{ demoBook with availableQuantity := 0 }],
    members := [demoMember], borrows := [demoRecord], nextId := 1, today := 100 }

/-- `demoState` with the member suspended, so that borrowing fails. -/
def demoSuspended : LibraryState :=
  { demoState with members := [{ demoMember with status := .SUSPENDED }] }

/-- `demoStateAfter` six days past the due date. -/
def demoLateState : LibraryState := { demoStateAfter with today := 120 }

/-- `demoStateAfter` four days before the due date. -/
def demoOnTimeState : LibraryState := { demoStateAfter with today := 110 }

/-- `demoRecord` finalized six days late: fine 6 × 10 = 60, overdue. -/
def demoLateRecord : BorrowRecord :=
  { demoRecord with returnDate := some 120, fine := 60, status := .OVERDUE }

/-- `demoRecord` finalized four days early: fine 0, returned on time. -/
def demoOnTimeRecord : BorrowRecord :=
  { demoRecord with returnDate := some 110, fine := 0, status := .RETURNED }

/-- The backend state after the late return. -/
def demoLateStateAfter : LibraryState :=
  { demoLateState with books := [demoBook], borrows := [demoLateRecord] }

/-- The backend state after the on-time return. -/
def demoOnTimeStateAfter : LibraryState :=
  { demoOnTimeState with books := [demoBook], borrows := [demoOnTimeRecord] }

/-- A borrow-page view state with no book selected yet. -/
def demoPageState : BorrowPageState :=
  { books := [demoBook], members := [demoMember],
    selectedBook := "", selectedMember := "1" }

/-! ## Helper lemmas -/

/-- Filtering out one id is the order-preserving removal of all records with
that id. -/
lemma filter_ne_id_eq_removeAllWithId (l : List BorrowRecord) (i : Nat) :
    l.filter (fun b => b.id != i) = removeAllWithId l i := by
  induction l with
  | nil => rfl
  | cons b rest ih =>
    by_cases hid : b.id = i
    · simp [List.filter_cons, removeAllWithId, hid, ih]
    · simp [List.filter_cons, removeAllWithId, hid, ih]

/-- Everything a successful `borrowBook` call determines: the exact created
record, the exact new state, and that all three eligibility conditions held. -/
lemma borrowBook_ok_elim {s : LibraryState} {bookId memberId : Nat}
    {r : BorrowRecord} {s' : LibraryState}
    (h : borrowBook s bookId memberId = .ok (r, s')) :
    r = { id := s.nextId, bookId := bookId, memberId := memberId,
          borrowDate := s.today, dueDate := s.today + dueDays,
          returnDate := none, fine := 0, status := .BORROWED } ∧
    s' = { s with books := adjustAvailability s.books bookId (-1),
                  borrows := s.borrows ++ [r],
                  nextId := s.nextId + 1 } ∧
    (∃ book, findBook s bookId = some book ∧ 0 < book.availableQuantity) ∧
    (∃ mem, findMember s memberId = some mem ∧ mem.status = .ACTIVE) ∧
    activeBorrowCount s memberId < maxActiveBorrows := by
  unfold borrowBook at h
  cases hb : findBook s bookId with
  | none => rw [hb] at h; dsimp only at h; simp at h
  | some book =>
    rw [hb] at h
    dsimp only at h
    by_cases hav : book.availableQuantity = 0
    · rw [if_pos hav] at h; simp at h
    · rw [if_neg hav] at h
      cases hm : findMember s memberId with
      | none => rw [hm] at h; dsimp only at h; simp at h
      | some mem =>
        rw [hm] at h
        dsimp only at h
        by_cases hst : mem.status = MemberStatus.ACTIVE
        · rw [if_neg (by simp [hst])] at h
          by_cases hcnt : maxActiveBorrows ≤ activeBorrowCount s memberId
          · rw [if_pos hcnt] at h; simp at h
          · rw [if_neg hcnt] at h
            simp only [Except.ok.injEq, Prod.mk.injEq] at h
            obtain ⟨hr, hs⟩ := h
            refine ⟨hr.symm, ?_, ⟨book, rfl, by omega⟩, ⟨mem, rfl, hst⟩, by omega⟩
            rw [← hs, ← hr]
        · rw [if_pos hst] at h; simp at h

/-- A failed borrow request leaves the backend state unchanged. -/
lemma borrowBook_error_step {s : LibraryState} {bookId memberId : Nat}
    {msg : String} (h : borrowBook s bookId memberId = .error msg) :
    step s (.borrowReq bookId memberId) = s := by
  simp only [step, h]

/-- Everything a successful `returnBook` call determines: the finalized record
and the exact new state. -/
lemma returnBook_ok_elim {s : LibraryState} {recordId : Nat}
    {r' : BorrowRecord} {s' : LibraryState}
    (h : returnBook s recordId = .ok (r', s')) :
    ∃ r, s.borrows.find? (fun q => q.id == recordId && q.status == .BORROWED)
          = some r ∧
      r' = finalizeReturn s.today r ∧
      s' = { s with books := adjustAvailability s.books r.bookId 1,
                    borrows := s.borrows.map (fun q =>
                      if q.id == recordId && q.status == .BORROWED then
                        finalizeReturn s.today q else q) } := by
  unfold returnBook at h
  cases hf : s.borrows.find?
      (fun q => q.id == recordId && q.status == .BORROWED) with
  | none => rw [hf] at h; dsimp only at h; simp at h
  | some r =>
    rw [hf] at h
    dsimp only at h
    simp only [Except.ok.injEq, Prod.mk.injEq] at h
    exact ⟨r, rfl, h.1.symm, h.2.symm⟩

/-- Equal lists agree at every index. -/
lemma get_congr {α : Type _} {l l' : List α} (h : l = l') {i : Nat}
    (hi : i < l.length) (hi' : i < l'.length) :
    l.get ⟨i, hi⟩ = l'.get ⟨i, hi'⟩ := by
  cases h
  rfl

/-- A finalized record is returned-on-time or overdue, never BORROWED. -/
lemma finalizeReturn_status (t : Int) (r : BorrowRecord) :
    (finalizeReturn t r).status = .RETURNED ∨
      (finalizeReturn t r).status = .OVERDUE := by
  unfold finalizeReturn
  dsimp only
  split
  · exact Or.inr rfl
  · exact Or.inl rfl

/-- Each backend step leaves the record list unchanged, appends one freshly
created record, or finalizes the BORROWED records matching a return request
in place. -/
lemma step_borrows_shape (s : LibraryState) (e : LibEvent) :
    (step s e).borrows = s.borrows ∨
    (∃ r, r.returnDate = none ∧ r.fine = 0 ∧ r.status = .BORROWED ∧
       (step s e).borrows = s.borrows ++ [r]) ∨
    (∃ recordId, e = .returnReq recordId ∧
       (step s e).borrows = s.borrows.map (fun q =>
         if q.id == recordId && q.status == .BORROWED then
           finalizeReturn s.today q else q)) := by
  cases e with
  | borrowReq bookId memberId =>
    cases hb : borrowBook s bookId memberId with
    | ok p =>
      obtain ⟨r, s'⟩ := p
      obtain ⟨hr, hs, -, -, -⟩ := borrowBook_ok_elim hb
      refine Or.inr (Or.inl ⟨r, by rw [hr], by rw [hr], by rw [hr], ?_⟩)
      simp only [step, hb]
      rw [hs]
    | error msg => exact Or.inl (by simp only [step, hb])
  | returnReq recordId =>
    cases hb : returnBook s recordId with
    | ok p =>
      obtain ⟨r', s'⟩ := p
      obtain ⟨r, hf, hr', hs⟩ := returnBook_ok_elim hb
      refine Or.inr (Or.inr ⟨recordId, rfl, ?_⟩)
      simp only [step, hb]
      rw [hs]
    | error msg => exact Or.inl (by simp only [step, hb])
  | tick => exact Or.inl rfl

/-- Invariant: in every reachable state, a BORROWED record has a null return
date and a zero fine. -/
lemma reachable_borrowed_clean {s : LibraryState} (hs : Reachable s) :
    ∀ r ∈ s.borrows, r.status = .BORROWED → r.returnDate = none ∧ r.fine = 0 := by
  induction hs with
  | init books members today =>
    intro r hr
    simp [initState] at hr
  | next e hs ih =>
    intro r hr hstat
    rcases step_borrows_shape _ e with hsh | ⟨rn, hrd, hfine, hst, hsh⟩ |
      ⟨recordId, -, hsh⟩
    · rw [hsh] at hr
      exact ih r hr hstat
    · rw [hsh] at hr
      rcases List.mem_append.1 hr with hmem | hmem
      · exact ih r hmem hstat
      · simp only [List.mem_singleton] at hmem
        subst hmem
        exact ⟨hrd, hfine⟩
    · rw [hsh] at hr
      obtain ⟨q, hq, hfq⟩ := List.mem_map.1 hr
      by_cases hcond : (q.id == recordId && q.status == .BORROWED) = true
      · rw [if_pos hcond] at hfq
        exfalso
        rcases finalizeReturn_status _ q with h1 | h1 <;>
          · rw [hfq, hstat] at h1
            cases h1
      · rw [if_neg hcond] at hfq
        subst hfq
        exact ih q hq hstat

/-- No backend step ever destroys a borrow record. -/
lemma step_borrows_length (s : LibraryState) (e : LibEvent) :
    s.borrows.length ≤ (step s e).borrows.length := by
  rcases step_borrows_shape s e with h | ⟨r, -, -, -, h⟩ | ⟨i, -, h⟩ <;>
    rw [h] <;> simp

/-- Per-record transition property of a backend step: a non-BORROWED record is
never touched, and a record that changes was BORROWED, was the target of a
return request, and is now finalized. -/
lemma step_borrows_get (s : LibraryState) (e : LibEvent) (i : Nat)
    (hi : i < s.borrows.length) (hi' : i < (step s e).borrows.length) :
    ((s.borrows.get ⟨i, hi⟩).status ≠ .BORROWED →
      (step s e).borrows.get ⟨i, hi'⟩ = s.borrows.get ⟨i, hi⟩) ∧
    ((step s e).borrows.get ⟨i, hi'⟩ ≠ s.borrows.get ⟨i, hi⟩ →
      (s.borrows.get ⟨i, hi⟩).status = .BORROWED ∧
      e = .returnReq (s.borrows.get ⟨i, hi⟩).id ∧
      (((step s e).borrows.get ⟨i, hi'⟩).status = .RETURNED ∨
       ((step s e).borrows.get ⟨i, hi'⟩).status = .OVERDUE) ∧
      ((step s e).borrows.get ⟨i, hi'⟩).returnDate = some s.today) := by
  rcases step_borrows_shape s e with hsh | ⟨rn, -, -, -, hsh⟩ |
    ⟨recordId, he, hsh⟩
  · have hget : (step s e).borrows.get ⟨i, hi'⟩ = s.borrows.get ⟨i, hi⟩ :=
      get_congr hsh hi' hi
    exact ⟨fun _ => hget, fun hne => absurd hget hne⟩
  · have h2 : i < (s.borrows ++ [rn]).length := by
      simp only [List.length_append, List.length_singleton]
      omega
    have hget : (step s e).borrows.get ⟨i, hi'⟩ = s.borrows.get ⟨i, hi⟩ := by
      rw [get_congr hsh hi' h2]
      simp [List.getElem_append_left, hi]
    exact ⟨fun _ => hget, fun hne => absurd hget hne⟩
  · have h2 : i < (s.borrows.map (fun q =>
        if q.id == recordId && q.status == .BORROWED then
          finalizeReturn s.today q else q)).length := by
      simpa using hi
    have hget : (step s e).borrows.get ⟨i, hi'⟩ =
        if (s.borrows.get ⟨i, hi⟩).id == recordId &&
            (s.borrows.get ⟨i, hi⟩).status == .BORROWED then
          finalizeReturn s.today (s.borrows.get ⟨i, hi⟩)
        else s.borrows.get ⟨i, hi⟩ := by
      rw [get_congr hsh hi' h2]
      simp [List.getElem_map]
    by_cases hcond : ((s.borrows.get ⟨i, hi⟩).id == recordId &&
        (s.borrows.get ⟨i, hi⟩).status == .BORROWED) = true
    · rw [if_pos hcond] at hget
      simp only [Bool.and_eq_true, beq_iff_eq] at hcond
      obtain ⟨hid, hstat⟩ := hcond
      constructor
      · intro hne
        exact absurd hstat hne
      · intro _
        refine ⟨hstat, ?_, ?_, ?_⟩
        · rw [he, hid]
        · rw [hget]
          exact finalizeReturn_status _ _
        · rw [hget]
          rfl
    · rw [if_neg hcond] at hget
      exact ⟨fun _ => hget, fun hne => absurd hget hne⟩

end LMS

/-! ## Theorems for the claims -/

namespace LMS

/-- Claim C4: the add-book form's client-side ISBN validation accepts an input
iff it is exactly 10 or exactly 13 decimal digits; every 9-digit input is
rejected client-side, so no add-book request is sent for it. -/
theorem isbn_pattern_matches_spec (s : String) :
    (isbnPatternValid s = true ↔ SpecIsbnWellFormed s) ∧
    (s.data.length = 9 → isbnPatternValid s = false) := by
  constructor
  · unfold isbnPatternValid SpecIsbnWellFormed
    simp only [Bool.or_eq_true, Bool.and_eq_true, beq_iff_eq, List.all_eq_true,
      decide_eq_true_eq]
    tauto
  · intro h9
    unfold isbnPatternValid
    simp [h9]

/-- Claim C4, witness: the 9-digit input "123456789" is rejected. -/
theorem isbn_pattern_matches_spec_w :
    "123456789".data.length = 9 ∧ isbnPatternValid "123456789" = false :=
  ⟨by decide, (isbn_pattern_matches_spec "123456789").2 (by decide)⟩

/-- Claim C7: for a fine computed server-side as `max 0 daysLate × 10` with
`daysLate ≥ 1`, the overdue page's Days Late badge `Math.round(fine / 10)`
recovers exactly `daysLate`. -/
theorem overdue_days_late_left_inverse (daysLate : Int) (h : 1 ≤ daysLate) :
    overdueDaysLateDisplay ((max 0 daysLate * finePerDay : Int) : ℚ) = daysLate := by
  have h0 : max 0 daysLate = daysLate := max_eq_right (by omega)
  rw [h0]
  unfold overdueDaysLateDisplay jsMathRound finePerDay
  have h10 : ((daysLate * 10 : Int) : ℚ) / 10 = (daysLate : ℚ) := by
    push_cast
    field_simp
  rw [h10, Int.floor_eq_iff]
  constructor
  · linarith
  · have hlt : (daysLate : ℚ) + 1 / 2 < daysLate + 1 := by linarith
    exact_mod_cast hlt

/-- Claim C7, witness: a fine of ₹40 (4 days late) displays as 4 days late. -/
theorem overdue_days_late_left_inverse_w :
    (1 : Int) ≤ 4 ∧
      overdueDaysLateDisplay ((max 0 4 * finePerDay : Int) : ℚ) = 4 :=
  ⟨by norm_num, overdue_days_late_left_inverse 4 (by norm_num)⟩

/-- Claim C8: the dashboard's three statistics are exactly the lengths of the
GET /books, GET /members and GET /borrow/overdue responses; in particular the
Overdue Books stat is the count returned by the overdue endpoint. -/
theorem dashboard_stats_are_response_lengths (s : LibraryState) :
    (dashboardStats s).books = (booksGetAll s).length ∧
    (dashboardStats s).members = (membersGetAll s).length ∧
    (dashboardStats s).overdue = (borrowGetOverdue s).length :=
  ⟨rfl, rfl, rfl⟩

/-- Claim C9: `handleBorrow` with an empty book or member selection shows only
the selection alert, issues no network request, and leaves the whole view
state (books, members, both selections) unchanged. -/
theorem handle_borrow_empty_selection_guard (s : BorrowPageState)
    (outcome : BorrowCallOutcome)
    (h : s.selectedBook = "" ∨ s.selectedMember = "") :
    (handleBorrow s outcome).1 = [.alertMsg "Please select both book and member"] ∧
    (∀ e ∈ (handleBorrow s outcome).1, e.isNetworkRequest = false) ∧
    (handleBorrow s outcome).2 = s := by
  unfold handleBorrow
  rw [if_pos h]
  refine ⟨rfl, ?_, rfl⟩
  intro e he
  simp only [List.mem_singleton] at he
  subst he
  rfl

/-- Claim C9, witness: with no book selected, the guard fires. -/
theorem handle_borrow_empty_selection_guard_w :
    demoPageState.selectedBook = "" ∧
    (handleBorrow demoPageState (.failure none)).1 =
      [.alertMsg "Please select both book and member"] ∧
    (handleBorrow demoPageState (.failure none)).2 = demoPageState :=
  ⟨rfl,
   (handle_borrow_empty_selection_guard demoPageState (.failure none)
      (Or.inl rfl)).1,
   (handle_borrow_empty_selection_guard demoPageState (.failure none)
      (Or.inl rfl)).2.2⟩

/-- Claim C10: after a confirmed successful return of record `recordId`, the
borrows view state is the previous list with every record of that id removed,
all other records unchanged and in their original relative order. -/
theorem handle_return_removes_returned_record (borrows : List BorrowRecord)
    (recordId : Nat) (fine : Int) :
    (handleReturn borrows recordId true (.success fine)).2 =
      removeAllWithId borrows recordId := by
  unfold handleReturn
  simp only [Bool.not_true, Bool.false_eq_true, if_false]
  exact filter_ne_id_eq_removeAllWithId borrows recordId

/-- Claim C3 counterexample: the dashboard's page-load fetch failure is an
API error that is not surfaced via any blocking dialog — its handler only
logs to the console and clears the loading flag. -/
theorem dashboard_load_error_shows_no_dialog :
    showsBlockingDialog dashboardLoadCatch = false := by decide

/-- Claim C3 (amended): every failing submit (borrow, return, add-book) is
surfaced via a blocking dialog showing the server-provided message when one
exists and a generic fallback otherwise (the return handler always uses its
generic message), while every page-load fetch failure shows no dialog at all. -/
theorem submit_errors_show_dialog_load_errors_do_not :
    (∀ m : String,
       showsBlockingDialog (handleBorrowCatch (some m)) = true ∧
       Effect.alertMsg m ∈ handleBorrowCatch (some m) ∧
       showsBlockingDialog (addBookCatch (some m)) = true ∧
       Effect.alertMsg m ∈ addBookCatch (some m)) ∧
    (showsBlockingDialog (handleBorrowCatch none) = true ∧
     Effect.alertMsg
         "Cannot borrow this book. Check member status and book limits." ∈
       handleBorrowCatch none) ∧
    (showsBlockingDialog (addBookCatch none) = true ∧
     Effect.alertMsg "Error adding book. Please check ISBN uniqueness." ∈
       addBookCatch none) ∧
    (showsBlockingDialog handleReturnCatch = true ∧
     Effect.alertMsg "Error returning book" ∈ handleReturnCatch) ∧
    showsBlockingDialog dashboardLoadCatch = false ∧
    showsBlockingDialog borrowPageLoadCatch = false ∧
    showsBlockingDialog booksPageLoadAllCatch = false ∧
    showsBlockingDialog booksPageLoadAvailableCatch = false ∧
    showsBlockingDialog membersPageLoadCatch = false ∧
    showsBlockingDialog overduePageLoadCatch = false ∧
    showsBlockingDialog activeBorrowsLoadCatch = false := by
  refine ⟨?_, ?_, ?_, ?_, ?_, ?_, ?_, ?_, ?_, ?_, ?_⟩
  · intro m
    refine ⟨rfl, ?_, rfl, ?_⟩
    · simp [handleBorrowCatch]
    · simp [addBookCatch]
  all_goals first
    | exact ⟨rfl, by simp [handleBorrowCatch, addBookCatch, handleReturnCatch]⟩
    | rfl

/-- Claim C1: a POST /borrow request succeeds and creates a borrow record iff
the referenced book is available, the referenced member is ACTIVE, and the
member's active (BORROWED) record count is strictly below 3; on failure the
backend state — and so the set of borrow records — is unchanged. -/
theorem borrow_succeeds_iff_eligible (s : LibraryState) (bookId memberId : Nat) :
    ((∃ r s', borrowBook s bookId memberId = .ok (r, s')) ↔
      ((∃ book, findBook s bookId = some book ∧ 0 < book.availableQuantity) ∧
       (∃ mem, findMember s memberId = some mem ∧ mem.status = .ACTIVE) ∧
       activeBorrowCount s memberId < 3)) ∧
    (∀ r s', borrowBook s bookId memberId = .ok (r, s') →
       s'.borrows = s.borrows ++ [r] ∧ r.status = .BORROWED) ∧
    (∀ msg, borrowBook s bookId memberId = .error msg →
       step s (.borrowReq bookId memberId) = s) := by
  refine ⟨⟨?_, ?_⟩, ?_, ?_⟩
  · rintro ⟨r, s', h⟩
    obtain ⟨-, -, hbk, hmem, hcnt⟩ := borrowBook_ok_elim h
    exact ⟨hbk, hmem, by unfold maxActiveBorrows at hcnt; omega⟩
  · rintro ⟨⟨book, hb, hav⟩, ⟨mem, hm, hst⟩, hcnt⟩
    have hok : borrowBook s bookId memberId =
        .ok ({ id := s.nextId, bookId := bookId, memberId := memberId,
               borrowDate := s.today, dueDate := s.today + dueDays,
               returnDate := none, fine := 0, status := .BORROWED },
             { s with books := adjustAvailability s.books bookId (-1),
                      borrows := s.borrows ++
                        [{ id := s.nextId, bookId := bookId,
                           memberId := memberId, borrowDate := s.today,
                           dueDate := s.today + dueDays, returnDate := none,
                           fine := 0, status := .BORROWED }],
                      nextId := s.nextId + 1 }) := by
      unfold borrowBook
      rw [hb]
      dsimp only
      rw [if_neg (by omega), hm]
      dsimp only
      rw [if_neg (by simp [hst]), if_neg (by unfold maxActiveBorrows; omega)]
    exact ⟨_, _, hok⟩
  · intro r s' h
    obtain ⟨hr, hs, -, -, -⟩ := borrowBook_ok_elim h
    exact ⟨by rw [hs], by rw [hr]⟩
  · intro msg h
    exact borrowBook_error_step h

/-- Claim C1, witness: borrowing from `demoState` succeeds and appends the
created record; borrowing with a suspended member leaves the state unchanged. -/
theorem borrow_succeeds_iff_eligible_w :
    (demoStateAfter.borrows = demoState.borrows ++ [demoRecord] ∧
       demoRecord.status = .BORROWED) ∧
    step demoSuspended (.borrowReq 1 1) = demoSuspended :=
  ⟨(borrow_succeeds_iff_eligible demoState 1 1).2.1 demoRecord demoStateAfter rfl,
   (borrow_succeeds_iff_eligible demoSuspended 1 1).2.2 "Member not active" rfl⟩

/-- Claim C2: a successful PUT /borrow/{id}/return sets the record's return
date to today and its fine to `max 0 daysLate` times the fixed per-day rate
of 10; on-time or early returns (daysLate ≤ 0) pay 0, late returns
(daysLate ≥ 1) pay `daysLate × 10`. -/
theorem return_sets_date_and_fine (s : LibraryState) (recordId : Nat)
    (r' : BorrowRecord) (s' : LibraryState)
    (h : returnBook s recordId = .ok (r', s')) :
    r'.returnDate = some s.today ∧
    r'.fine = max 0 (s.today - r'.dueDate) * finePerDay ∧
    (s.today - r'.dueDate ≤ 0 → r'.fine = 0) ∧
    (1 ≤ s.today - r'.dueDate → r'.fine = (s.today - r'.dueDate) * 10) := by
  obtain ⟨r, -, hr', -⟩ := returnBook_ok_elim h
  subst hr'
  refine ⟨rfl, rfl, ?_, ?_⟩
  · intro hd
    have hd' : s.today - r.dueDate ≤ 0 := hd
    show max 0 (s.today - r.dueDate) * finePerDay = 0
    rw [max_eq_left hd']
    exact zero_mul _
  · intro hd
    have hd' : 1 ≤ s.today - r.dueDate := hd
    show max 0 (s.today - r.dueDate) * finePerDay = (s.today - r.dueDate) * 10
    rw [max_eq_right (by omega : (0 : Int) ≤ s.today - r.dueDate)]
    rfl

/-- Claim C2, witness: a return six days late pays ₹60, a return four days
early pays ₹0. -/
theorem return_sets_date_and_fine_w :
    demoLateRecord.fine = (demoLateState.today - demoLateRecord.dueDate) * 10 ∧
    demoOnTimeRecord.fine = 0 :=
  ⟨(return_sets_date_and_fine demoLateState 0 demoLateRecord demoLateStateAfter
      rfl).2.2.2 (by decide),
   (return_sets_date_and_fine demoOnTimeState 0 demoOnTimeRecord
      demoOnTimeStateAfter rfl).2.2.1 (by decide)⟩

/-- Claim C5: every successfully created borrow record is due exactly 14 days
after its borrow date, and both post-borrow frontend messages state the same
14-day period. -/
theorem borrow_due_date_matches_frontend_messages (s : LibraryState)
    (bookId memberId : Nat) (r : BorrowRecord) (s' : LibraryState)
    (h : borrowBook s bookId memberId = .ok (r, s')) :
    r.dueDate = r.borrowDate + dueDays ∧ dueDays = 14 ∧
    borrowSuccessMessage =
      "Book borrowed successfully! Due in " ++ toString dueDays ++ " days" ∧
    borrowPageDueNote =
      "Due date will be " ++ toString dueDays ++ " days from today" := by
  obtain ⟨hr, -, -, -, -⟩ := borrowBook_ok_elim h
  subst hr
  exact ⟨rfl, rfl, rfl, rfl⟩

/-- Claim C5, witness: the record created from `demoState` is due on day 114,
14 days after day 100. -/
theorem borrow_due_date_matches_frontend_messages_w :
    demoRecord.dueDate = demoRecord.borrowDate + dueDays ∧ dueDays = 14 ∧
    borrowSuccessMessage =
      "Book borrowed successfully! Due in " ++ toString dueDays ++ " days" ∧
    borrowPageDueNote =
      "Due date will be " ++ toString dueDays ++ " days from today" :=
  borrow_due_date_matches_frontend_messages demoState 1 1 demoRecord
    demoStateAfter rfl

/-- Claim C6: in every reachable state a BORROWED record has a null return
date and a zero fine; a backend step never destroys a record; a record with
any other status is never changed by any step; and a record that does change
was BORROWED, was the target of a return request, and is thereby finalized to
returned-on-time or overdue with its return date set. -/
theorem borrowed_lifecycle_invariant :
    (∀ s, Reachable s → ∀ r ∈ s.borrows, r.status = .BORROWED →
       r.returnDate = none ∧ r.fine = 0) ∧
    (∀ s e, s.borrows.length ≤ (step s e).borrows.length) ∧
    (∀ s e i (hi : i < s.borrows.length)
       (hi' : i < (step s e).borrows.length),
       ((s.borrows.get ⟨i, hi⟩).status ≠ .BORROWED →
         (step s e).borrows.get ⟨i, hi'⟩ = s.borrows.get ⟨i, hi⟩) ∧
       ((step s e).borrows.get ⟨i, hi'⟩ ≠ s.borrows.get ⟨i, hi⟩ →
         (s.borrows.get ⟨i, hi⟩).status = .BORROWED ∧
         e = .returnReq (s.borrows.get ⟨i, hi⟩).id ∧
         (((step s e).borrows.get ⟨i, hi'⟩).status = .RETURNED ∨
          ((step s e).borrows.get ⟨i, hi'⟩).status = .OVERDUE) ∧
         ((step s e).borrows.get ⟨i, hi'⟩).returnDate = some s.today)) :=
  ⟨fun _ hs => reachable_borrowed_clean hs, step_borrows_length,
   step_borrows_get⟩

/-- Claim C6, witness: on a concrete two-step trace, the freshly created
record is clean, processing its return finalizes it to overdue with the
return date set, and a later tick leaves the finalized record untouched. -/
theorem borrowed_lifecycle_invariant_w :
    (demoRecord.returnDate = none ∧ demoRecord.fine = 0) ∧
    ((demoLateState.borrows.get ⟨0, by decide⟩).status = .BORROWED ∧
     LibEvent.returnReq 0 =
       .returnReq ((demoLateState.borrows.get ⟨0, by decide⟩).id) ∧
     (((step demoLateState (.returnReq 0)).borrows.get ⟨0, by decide⟩).status
          = .RETURNED ∨
      ((step demoLateState (.returnReq 0)).borrows.get ⟨0, by decide⟩).status
          = .OVERDUE) ∧
     ((step demoLateState (.returnReq 0)).borrows.get ⟨0, by decide⟩).returnDate
        = some demoLateState.today) ∧
    (step demoLateStateAfter .tick).borrows.get ⟨0, by decide⟩ =
      demoLateStateAfter.borrows.get ⟨0, by decide⟩ :=
  ⟨borrowed_lifecycle_invariant.1 (step demoState (.borrowReq 1 1))
      (Reachable.next _ (Reachable.init [demoBook] [demoMember] 100))
      demoRecord (by decide) rfl,
   (borrowed_lifecycle_invariant.2.2 demoLateState (.returnReq 0) 0
      (by decide) (by decide)).2 (by decide),
   (borrowed_lifecycle_invariant.2.2 demoLateStateAfter .tick 0
      (by decide) (by decide)).1 (by decide)⟩

end LMS
